import Mathlib

/-
Shallow embedding of the WordGrinder display/input backends
(src/c/arch/sdl/dpy.c and src/c/arch/glfw/main.c).

Machine integers (C `int` / `uni_t`) are modelled as `Int`, with the C
bitwise operators `&` and `|` modelled as `cAnd32` / `cOr32`: bitwise
operations on the 32-bit two's-complement representative, mapped back to
the signed value.  This matches the C 32-bit operators exactly, including
the one place where a negative operand occurs (`key |= VKM_SHIFT` after
`key = -(VKM_CTRLASCII | 0)` in the SDL backend).

C doubles (the `timeout` parameter of dpy_getchar and the GLFW time
source) are modelled as `Int`: the embedded arithmetic is exact for the
integral values the claims concern, and the sentinel comparison
`timeout == -1` is exact in both models.
-/

namespace Wordgrinder

/-- The 32-bit two's-complement representative of a C `int` value. -/
def toU32 (x : Int) : Nat := (x % (2 ^ 32 : Int)).toNat

/-- The signed value of a 32-bit two's-complement representative. -/
def ofU32 (n : Nat) : Int :=
  if n < 2 ^ 31 then (n : Int) else (n : Int) - 2 ^ 32

/-- C 32-bit bitwise AND on signed `int` values. -/
def cAnd32 (a b : Int) : Int := ofU32 (Nat.land (toU32 a) (toU32 b))

/-- C 32-bit bitwise OR on signed `int` values. -/
def cOr32 (a b : Int) : Int := ofU32 (Nat.lor (toU32 a) (toU32 b))

/-- VKM_SHIFT from both backends (0x10000). -/
def VKM_SHIFT : Int := 0x10000

/-- VKM_CTRL from both backends (0x20000). -/
def VKM_CTRL : Int := 0x20000

/-- VKM_CTRLASCII from both backends (0x40000). -/
def VKM_CTRLASCII : Int := 0x40000

/-- SDLK_RESIZE sentinel magnitude from the SDL backend (0x80000). -/
def SDLK_RESIZE : Int := 0x80000

/-- SDLK_TIMEOUT sentinel magnitude from the SDL backend (0x80001). -/
def SDLK_TIMEOUT : Int := 0x80001

/-- VK_RESIZE sentinel magnitude from the GLFW backend (0x80000). -/
def VK_RESIZE : Int := 0x80000

/-- VK_TIMEOUT sentinel magnitude from the GLFW backend (0x80001). -/
def VK_TIMEOUT : Int := 0x80001

/-- VK_QUIT sentinel magnitude from the GLFW backend (0x80002). -/
def VK_QUIT : Int := 0x80002

/-- C INT_MAX, used by the SDL backend for the `timeout == -1` case. -/
def INT_MAX : Int := 2147483647

namespace Sdl

/- SDL2 keycode constants used by dpy.c (values from SDL_keycode.h:
printable-ASCII keycodes are the character codes; the rest are
scancode | 0x40000000). -/

def SDLK_DOWN : Int := 0x40000051
def SDLK_UP : Int := 0x40000052
def SDLK_LEFT : Int := 0x40000050
def SDLK_RIGHT : Int := 0x4000004F
def SDLK_HOME : Int := 0x4000004A
def SDLK_END : Int := 0x4000004D
def SDLK_BACKSPACE : Int := 0x8
def SDLK_DELETE : Int := 0x7F
def SDLK_INSERT : Int := 0x40000049
def SDLK_PAGEUP : Int := 0x4000004B
def SDLK_PAGEDOWN : Int := 0x4000004E
def SDLK_TAB : Int := 0x9
def SDLK_RETURN : Int := 0xD
def SDLK_ESCAPE : Int := 0x1B
def SDLK_F1 : Int := 0x4000003A
def SDLK_F24 : Int := 0x40000073

/-- C `toupper` restricted to its use site (arguments in [0x20,0x80)):
lower-case ASCII letters map to upper case, everything else is fixed. -/
def toupperC (k : Int) : Int :=
  if 0x61 ≤ k ∧ k ≤ 0x7A then k - 0x20 else k

/-- The tail of the SDL_KEYDOWN case from `check_shift:` onwards:
`if (mod & KMOD_SHIFT) key |= VKM_SHIFT; key = -key; return key;`. -/
def sdl_checkShift (key : Int) (shift : Bool) : Int :=
  -(if shift then cOr32 key VKM_SHIFT else key)

/-- The SDL_KEYDOWN case of dpy_getchar (dpy.c lines 149-178).
`sym` is `e.key.keysym.sym`; `ctrl` / `shift` are `e.key.keysym.mod &
KMOD_CTRL` / `& KMOD_SHIFT`.  `some v` models `return v`; `none` models
`break` (the event is consumed and the wait loop continues). -/
def sdl_handle_keydown (sym : Int) (ctrl shift : Bool) : Option Int :=
  if 0x20 ≤ sym ∧ sym < 0x80 then
    if ctrl then
      let k := toupperC sym
      if k = 0x20 then
        some (sdl_checkShift (-(cOr32 VKM_CTRLASCII 0)) shift)
      else if 0x41 ≤ k ∧ k ≤ 0x5A then
        some (sdl_checkShift (cOr32 (cAnd32 k 0x1F) VKM_CTRLASCII) shift)
      else none
    else none
  else
    some (sdl_checkShift (if ctrl then cOr32 sym VKM_CTRL else sym) shift)

/-- One SDL event as seen by dpy_getchar.  For SDL_TEXTINPUT the field
is the codepoint `readu8` decodes from `e.text.text` (0 when the text
is empty/invalid); the UTF-8 decoder itself lives outside this layer. -/
inductive SdlEvent where
  | quit
  | textInput (key : Int)
  | keyDown (sym : Int) (ctrl : Bool) (shift : Bool)
  | other
deriving DecidableEq

/-- The event switch of dpy_getchar (dpy.c lines 134-179): `some v`
models `return v`, `none` models falling out of the switch (SDL_QUIT is
consumed by a bare `break`, as is any event type without a case). -/
def sdl_handle_event : SdlEvent → Option Int
  | SdlEvent.quit => none
  | SdlEvent.textInput key => if key = 0 then none else some key
  | SdlEvent.keyDown sym ctrl shift => sdl_handle_keydown sym ctrl shift
  | SdlEvent.other => none

/-- The wait loop of dpy_getchar (dpy.c lines 127-181).  The trace
lists, for each iteration, the value `SDL_GetTicks()` returns and the
outcome of `SDL_WaitEventTimeout` (`none` = the wait timed out, `some e`
= event `e` was delivered).  `some v` models `return v`; `none` means
the modelled trace ended with the loop still running. -/
def sdl_getchar_loop (expiry : Int) : List (Int × Option SdlEvent) → Option Int
  | [] => none
  | (now, ev) :: rest =>
    if expiry ≤ now then some 0
    else
      match ev with
      | none => sdl_getchar_loop expiry rest
      | some e =>
        match sdl_handle_event e with
        | some v => some v
        | none => sdl_getchar_loop expiry rest

/-- dpy_getchar of the SDL backend (dpy.c lines 121-184).  `timeout` is
in seconds (`-1` = no timeout), `startTicks` the `SDL_GetTicks()` value
at entry; `expiry_ms = SDL_GetTicks() + timeout*1000.0`, overridden to
INT_MAX when `timeout == -1`. -/
def sdl_getchar (timeout startTicks : Int)
    (trace : List (Int × Option SdlEvent)) : Option Int :=
  let expiry := if timeout = -1 then INT_MAX else startTicks + timeout * 1000
  sdl_getchar_loop expiry trace

/-- The keycode-to-template switch of dpy_getkeyname (dpy.c lines
206-223).  Note the PAGEUP/PAGEDOWN templates as written in the source. -/
def sdl_template (key : Int) : Option String :=
  if key = SDLK_DOWN then some "DOWN"
  else if key = SDLK_UP then some "UP"
  else if key = SDLK_LEFT then some "LEFT"
  else if key = SDLK_RIGHT then some "RIGHT"
  else if key = SDLK_HOME then some "HOME"
  else if key = SDLK_END then some "END"
  else if key = SDLK_BACKSPACE then some "BACKSPACE"
  else if key = SDLK_DELETE then some "DELETE"
  else if key = SDLK_INSERT then some "INSERT"
  else if key = SDLK_PAGEUP then some "PGDN"
  else if key = SDLK_PAGEDOWN then some "PGUP"
  else if key = SDLK_TAB then some "TAB"
  else if key = SDLK_RETURN then some "RETURN"
  else if key = SDLK_ESCAPE then some "ESCAPE"
  else none

/-- The `sprintf(buffer, "KEY_%s%s%s", shift?"S":"", ctrl?"C":"", t)`
rendering shared by the template and function-key branches of
dpy_getkeyname (dpy.c lines 227-230 and 236-239). -/
def sdl_keyname_mods (mods : Int) (t : String) : String :=
  "KEY_" ++ (if cAnd32 mods VKM_SHIFT ≠ 0 then "S" else "")
    ++ (if cAnd32 mods VKM_CTRL ≠ 0 then "C" else "") ++ t

/-- dpy_getkeyname of the SDL backend (dpy.c lines 186-245). -/
def sdl_getkeyname (k : Int) : String :=
  if -k = SDLK_RESIZE then "KEY_RESIZE"
  else if -k = SDLK_TIMEOUT then "KEY_TIMEOUT"
  else
    let mods := -k
    let key := cAnd32 (-k) 0xFFF0FFFF
    if cAnd32 mods VKM_CTRLASCII ≠ 0 then
      "KEY_" ++ (if cAnd32 mods VKM_SHIFT ≠ 0 then "S" else "") ++ "^"
        ++ (Char.ofNat (key + 64).toNat).toString
    else
      match sdl_template key with
      | some t => sdl_keyname_mods mods t
      | none =>
        if SDLK_F1 ≤ key ∧ key ≤ SDLK_F24 then
          sdl_keyname_mods mods ("F" ++ toString (key - SDLK_F1 + 1))
        else
          "KEY_UNKNOWN_" ++ toString (-k)

end Sdl

namespace Glfw

/-- One screen cell of the GLFW backend (`struct cell`: codepoint `c`
and attribute `attr`). -/
structure Cell where
  c : Int
  attr : Int
deriving DecidableEq

/-- The mutable state of the GLFW backend (main.c lines 17-24).  The C
`struct cell* screen` pointer is modelled as an allocation flag plus a
total map from linear index `x + y * screenWidth` to cell; indices
outside `[0, screenWidth * screenHeight)` stand for the memory adjacent
to the allocation, so out-of-bounds stores are observable. -/
structure GlfwState where
  screenWidth : Int
  screenHeight : Int
  screenAllocated : Bool
  screen : Int → Cell
  currentAttr : Int
  cursorx : Int
  cursory : Int
  cursorShown : Bool

/-- dpy_setattr of the GLFW backend (main.c lines 141-145):
`currentAttr &= andmask; currentAttr |= ormask;`. -/
def dpy_setattr (s : GlfwState) (andmask ormask : Int) : GlfwState :=
  { s with currentAttr := cOr32 (cAnd32 s.currentAttr andmask) ormask }

/-- dpy_writechar of the GLFW backend (main.c lines 147-159). -/
def dpy_writechar (s : GlfwState) (x y c : Int) : GlfwState :=
  if s.screenAllocated = false then s
  else if x < 0 ∨ x ≥ s.screenWidth then s
  else if y < 0 ∨ y ≥ s.screenHeight then s
  else
    { s with
      screen := fun i =>
        if i = x + y * s.screenWidth then { c := c, attr := s.currentAttr }
        else s.screen i }

/-- dpy_setcursor of the GLFW backend (main.c lines 178-183). -/
def dpy_setcursor (s : GlfwState) (x y : Int) (shown : Bool) : GlfwState :=
  { s with cursorx := x, cursory := y, cursorShown := shown }

/-- The inclusive range of C `for (v = a; v <= b; v++)`. -/
def intRangeIncl (a b : Int) : List Int :=
  (List.range (b + 1 - a).toNat).map (fun i => a + (i : Int))

/-- The linear indices `y * W + x` stored to by the loops of
dpy_cleararea (main.c lines 166-175): the cell pointer starts at
`&screen[y * screenWidth + x1]` and is incremented once per `x`
iteration; no bound of the rectangle is checked against the screen
size. -/
def clearCells (W x1 y1 x2 y2 : Int) : List Int :=
  (intRangeIncl y1 y2).flatMap (fun y =>
    (intRangeIncl x1 x2).map (fun x => y * W + x))

/-- One store `p->c = ' '; p->attr = currentAttr;` of dpy_cleararea at
linear index `i`. -/
def clearStep (st : GlfwState) (i : Int) : GlfwState :=
  { st with
    screen := fun j =>
      if j = i then { c := 0x20, attr := st.currentAttr } else st.screen j }

/-- dpy_cleararea of the GLFW backend (main.c lines 161-176). -/
def dpy_cleararea (s : GlfwState) (x1 y1 x2 y2 : Int) : GlfwState :=
  if s.screenAllocated = false then s
  else (clearCells s.screenWidth x1 y1 x2 y2).foldl clearStep s

/-- The wait loop of the GLFW dpy_getchar (main.c lines 188-199).  The
trace lists the `glfwGetTime()` value sampled at each iteration (unused
in the `timeout == -1` branch, which calls `glfwWaitEvents` and loops).
The loop body inspects no event at all, so the only `return` is the
timeout one; `none` means the modelled trace ended with the loop still
running. -/
def glfw_getchar_loop (timeout endTime : Int) : List Int → Option Int
  | [] => none
  | now :: rest =>
    if timeout = -1 then glfw_getchar_loop timeout endTime rest
    else if endTime - now < 0 then some (-VK_TIMEOUT)
    else glfw_getchar_loop timeout endTime rest

/-- dpy_getchar of the GLFW backend (main.c lines 185-229): `endTime =
glfwGetTime() + timeout` is computed unconditionally before the loop. -/
def glfw_getchar (timeout startTime : Int) (times : List Int) : Option Int :=
  glfw_getchar_loop timeout (startTime + timeout) times

/-- dpy_getkeyname of the GLFW backend (main.c lines 231-300): the live
code is `return "KEY_TIMEOUT";` for every argument (the remainder of
the function is compiled out under `#if 0`). -/
def glfw_getkeyname (_k : Int) : String := "KEY_TIMEOUT"

/-- A concrete started state used to evaluate the buffer operations:
an 80x25 screen of zeroed cells with current attribute 7. -/
def glfwDemoState : GlfwState :=
  { screenWidth := 80
    screenHeight := 25
    screenAllocated := true
    screen := fun _ => { c := 0, attr := 0 }
    currentAttr := 7
    cursorx := 0
    cursory := 0
    cursorShown := false }

end Glfw

end Wordgrinder

open Wordgrinder Wordgrinder.Sdl Wordgrinder.Glfw

/-- Each store of dpy_cleararea leaves the attribute register alone. -/
theorem clearStep_currentAttr (st : GlfwState) (i : Int) :
    (clearStep st i).currentAttr = st.currentAttr := rfl

/-- The whole dpy_cleararea store loop leaves the attribute register alone. -/
theorem foldl_clearStep_currentAttr (l : List Int) (st : GlfwState) :
    (l.foldl clearStep st).currentAttr = st.currentAttr := by
  induction l generalizing st with
  | nil => rfl
  | cons a t ih => simpa [clearStep] using ih (clearStep st a)

/-- A linear index not stored to by the dpy_cleararea loop keeps its cell. -/
theorem foldl_clearStep_screen_not_mem (l : List Int) (st : GlfwState) (i : Int)
    (h : i ∉ l) : (l.foldl clearStep st).screen i = st.screen i := by
  induction l generalizing st with
  | nil => rfl
  | cons a t ih =>
    have hne : i ≠ a := fun hia => h (hia ▸ List.mem_cons_self a t)
    have ht : i ∉ t := fun hit => h (List.mem_cons_of_mem a hit)
    simpa [clearStep, hne] using ih (clearStep st a) ht

/-- A linear index stored to by the dpy_cleararea loop ends as a space
cell carrying the attribute register's value. -/
theorem foldl_clearStep_screen_mem (l : List Int) (st : GlfwState) (i : Int)
    (h : i ∈ l) : (l.foldl clearStep st).screen i =
      { c := 0x20, attr := st.currentAttr } := by
  induction l generalizing st with
  | nil => exact absurd h (List.not_mem_nil i)
  | cons a t ih =>
    by_cases hit : i ∈ t
    · simpa [clearStep] using ih (clearStep st a) hit
    · have hia : i = a := by
        rcases List.mem_cons.mp h with h' | h'
        · exact h'
        · exact absurd h' hit
      rw [List.foldl_cons, foldl_clearStep_screen_not_mem t (clearStep st a) i hit]
      simp [clearStep, hia]

/-- C1: on deadline expiry with no relevant event, the SDL dpy_getchar
returns the literal 0 (the `return 0` at dpy.c line 131; the trailing
`return SDLK_TIMEOUT` at line 183 sits after an infinite loop and is
unreachable), not the negated TIMEOUT sentinel; the GLFW dpy_getchar
does return the negated sentinel. -/
theorem c1_timeout_code_bug :
    sdl_getchar 0 0 [(0, none)] = some 0
  ∧ (0 : Int) ≠ -SDLK_TIMEOUT
  ∧ glfw_getchar 1 0 [0, 2] = some (-VK_TIMEOUT) := by
  exact ⟨by decide, by decide, by decide⟩

/-- C2: an SDL key-down of Space with Ctrl held takes the
CTRL_AS_ASCII_CONTROL branch whose `key = -(VKM_CTRLASCII | 0)` is
negated a second time by the final `key = -key`, so dpy_getchar returns
the POSITIVE value 0x40000 (and 0x30000 with Shift) for a key-down
event, violating the sign encoding. -/
theorem c2_ctrl_space_positive_code_bug :
    sdl_handle_keydown 0x20 true false = some 0x40000
  ∧ (0 : Int) < 0x40000
  ∧ sdl_handle_keydown 0x20 true true = some 0x30000 := by
  exact ⟨by decide, by decide, by decide⟩

/-- C3: dpy_writechar of the GLFW backend is a no-op for every
out-of-range coordinate, but dpy_cleararea performs no clipping at all:
clearing the rectangle (0,0)-(80,0) on an 80x25 screen stores a space
into linear index 80 = cell (0,1), an in-bounds cell outside the
rectangle, corrupting an adjacent cell (indices past the buffer end are
likewise stored to). -/
theorem c3_cleararea_unclipped_code_bug :
    dpy_writechar glfwDemoState 80 0 0x58 = glfwDemoState
  ∧ dpy_writechar glfwDemoState (-1) 3 0x58 = glfwDemoState
  ∧ dpy_writechar glfwDemoState 3 25 0x58 = glfwDemoState
  ∧ dpy_writechar glfwDemoState 3 (-2) 0x58 = glfwDemoState
  ∧ glfwDemoState.screen (0 + 1 * glfwDemoState.screenWidth) = { c := 0, attr := 0 }
  ∧ (dpy_cleararea glfwDemoState 0 0 80 0).screen (0 + 1 * glfwDemoState.screenWidth)
      = { c := 0x20, attr := 7 } := by
  exact ⟨rfl, rfl, rfl, rfl, rfl, by decide⟩

/-- C4 counterexample: the SDL dpy_getkeyname has no case for a QUIT
sentinel (none exists in that backend) and decodes its magnitude to
"KEY_UNKNOWN_524290", not "KEY_QUIT"; the live GLFW dpy_getkeyname
returns "KEY_TIMEOUT" even for the negated RESIZE sentinel. -/
theorem c4_quit_name_counterexample :
    sdl_getkeyname (-VK_QUIT) = "KEY_UNKNOWN_524290"
  ∧ sdl_getkeyname (-VK_QUIT) ≠ "KEY_QUIT"
  ∧ glfw_getkeyname (-VK_RESIZE) = "KEY_TIMEOUT" := by
  exact ⟨by decide, by decide, by decide⟩

/-- C4 amended: the SDL dpy_getkeyname returns the fixed names for the
two sentinels that backend defines (RESIZE and TIMEOUT); the live GLFW
dpy_getkeyname returns "KEY_TIMEOUT" for the negated TIMEOUT sentinel
(as for every other argument). -/
theorem c4_sentinel_names_amended :
    sdl_getkeyname (-SDLK_RESIZE) = "KEY_RESIZE"
  ∧ sdl_getkeyname (-SDLK_TIMEOUT) = "KEY_TIMEOUT"
  ∧ glfw_getkeyname (-VK_TIMEOUT) = "KEY_TIMEOUT" := by
  exact ⟨by decide, by decide, by decide⟩

/-- C5: the GLFW dpy_getchar called with timeout -1 never returns, no
matter what happens: its wait loop inspects no event (the key callback
only prints), so no key-down can ever be delivered to the caller.  The
SDL dpy_getchar does behave as claimed: with timeout -1 it keeps
waiting (expiry is INT_MAX) and returns the encoded negative value on a
key-down (here Shift+Left after two billion milliseconds). -/
theorem c5_glfw_never_returns_code_bug :
    (∀ (endTime : Int) (ts : List Int), glfw_getchar_loop (-1) endTime ts = none)
  ∧ sdl_getchar (-1) 0
      [(1000000000, none), (2000000000, some (SdlEvent.keyDown SDLK_LEFT false true))]
      = some (-(0x40010050 : Int)) := by
  constructor
  · intro e ts
    induction ts with
    | nil => rfl
    | cons a t ih => simpa [glfw_getchar_loop] using ih
  · decide

/-- C6: dpy_setattr of the GLFW backend sets the attribute register to
exactly (current AND andmask) OR ormask, and that value is the
attribute stored by an immediately following dpy_writechar (at its
in-bounds target cell) and dpy_cleararea (at every linear index its
loop stores to). -/
theorem c6_attr_register (s : GlfwState) (am om x y c x1 y1 x2 y2 i : Int) :
    (dpy_setattr s am om).currentAttr = cOr32 (cAnd32 s.currentAttr am) om
  ∧ (s.screenAllocated = true → 0 ≤ x → x < s.screenWidth → 0 ≤ y → y < s.screenHeight →
      (dpy_writechar (dpy_setattr s am om) x y c).screen (x + y * s.screenWidth)
        = { c := c, attr := cOr32 (cAnd32 s.currentAttr am) om })
  ∧ (s.screenAllocated = true → i ∈ clearCells s.screenWidth x1 y1 x2 y2 →
      (dpy_cleararea (dpy_setattr s am om) x1 y1 x2 y2).screen i
        = { c := 0x20, attr := cOr32 (cAnd32 s.currentAttr am) om }) := by
  refine ⟨rfl, ?_, ?_⟩
  · intro halloc hx0 hxW hy0 hyH
    have hx : ¬(x < 0 ∨ x ≥ s.screenWidth) := by omega
    have hy : ¬(y < 0 ∨ y ≥ s.screenHeight) := by omega
    simp [dpy_writechar, dpy_setattr, halloc, hx, hy]
  · intro halloc hmem
    have h := foldl_clearStep_screen_mem
      (clearCells s.screenWidth x1 y1 x2 y2) (dpy_setattr s am om) i hmem
    simpa [dpy_cleararea, dpy_setattr, halloc] using h

/-- C6 witness: the register/attribute law instantiated on the demo
state with andmask 0xFF, ormask 0x3. -/
theorem c6_attr_register_witness :
    (dpy_setattr glfwDemoState 0xFF 0x3).currentAttr = cOr32 (cAnd32 7 0xFF) 0x3
  ∧ (dpy_writechar (dpy_setattr glfwDemoState 0xFF 0x3) 5 5 0x58).screen
      (5 + 5 * glfwDemoState.screenWidth)
      = { c := 0x58, attr := cOr32 (cAnd32 7 0xFF) 0x3 }
  ∧ (dpy_cleararea (dpy_setattr glfwDemoState 0xFF 0x3) 0 0 2 1).screen 1
      = { c := 0x20, attr := cOr32 (cAnd32 7 0xFF) 0x3 } :=
  ⟨(c6_attr_register glfwDemoState 0xFF 0x3 5 5 0x58 0 0 2 1 1).1,
   (c6_attr_register glfwDemoState 0xFF 0x3 5 5 0x58 0 0 2 1 1).2.1 rfl
     (by decide) (by decide) (by decide) (by decide),
   (c6_attr_register glfwDemoState 0xFF 0x3 5 5 0x58 0 0 2 1 1).2.2 rfl (by decide)⟩

/-- C7: encode-then-name round trips on the SDL backend: Ctrl+'a'
key-down (reported with sym 0x61 and KMOD_CTRL) encodes through the
CTRL_AS_ASCII_CONTROL rule and names back to "KEY_^A" ("KEY_S^A" with
Shift); Shift+Left names back to "KEY_SLEFT". -/
theorem c7_keyname_roundtrip :
    (sdl_handle_keydown 0x61 true false).map sdl_getkeyname = some "KEY_^A"
  ∧ (sdl_handle_keydown 0x61 true true).map sdl_getkeyname = some "KEY_S^A"
  ∧ (sdl_handle_keydown SDLK_LEFT false true).map sdl_getkeyname = some "KEY_SLEFT" := by
  exact ⟨by decide, by decide, by decide⟩

/-- C8 counterexample: the SDL dpy_getkeyname renders a plain-CTRL
modifier as the character "C", not "^": the code Ctrl+Left encodes to
decodes to "KEY_CLEFT", not "KEY_^LEFT". -/
theorem c8_ctrl_marker_counterexample :
    (sdl_handle_keydown SDLK_LEFT true false).map sdl_getkeyname = some "KEY_CLEFT"
  ∧ "KEY_CLEFT" ≠ "KEY_^LEFT" := by
  exact ⟨by decide, by decide⟩

/-- C8 amended: for every non-sentinel code whose masked base key is in
the shared symbolic-name table or the function-key range, the SDL
dpy_getkeyname renders "KEY_" + optional "S" + optional "C" + NAME,
i.e. the CTRL marker is the character "C" (the "^" marker is used only
by the CTRL_AS_ASCII_CONTROL branch). -/
theorem c8_ctrl_marker_amended (k : Int)
    (h1 : -k ≠ SDLK_RESIZE) (h2 : -k ≠ SDLK_TIMEOUT)
    (h3 : cAnd32 (-k) VKM_CTRLASCII = 0) :
    (∀ t, sdl_template (cAnd32 (-k) 0xFFF0FFFF) = some t →
      sdl_getkeyname k = "KEY_" ++ (if cAnd32 (-k) VKM_SHIFT ≠ 0 then "S" else "")
        ++ (if cAnd32 (-k) VKM_CTRL ≠ 0 then "C" else "") ++ t)
  ∧ (sdl_template (cAnd32 (-k) 0xFFF0FFFF) = none →
      SDLK_F1 ≤ cAnd32 (-k) 0xFFF0FFFF → cAnd32 (-k) 0xFFF0FFFF ≤ SDLK_F24 →
      sdl_getkeyname k = "KEY_" ++ (if cAnd32 (-k) VKM_SHIFT ≠ 0 then "S" else "")
        ++ (if cAnd32 (-k) VKM_CTRL ≠ 0 then "C" else "")
        ++ ("F" ++ toString (cAnd32 (-k) 0xFFF0FFFF - SDLK_F1 + 1))) := by
  constructor
  · intro t ht
    simp [sdl_getkeyname, sdl_keyname_mods, h1, h2, h3, ht]
  · intro ht hf1 hf2
    simp [sdl_getkeyname, sdl_keyname_mods, h1, h2, h3, ht, hf1, hf2]

/-- C8 witness: the amended rendering law applied to Ctrl+Left's code
and to Shift+F2's code. -/
theorem c8_ctrl_marker_amended_witness :
    sdl_getkeyname (-(0x40020050 : Int)) = "KEY_CLEFT"
  ∧ sdl_getkeyname (-(0x4001003B : Int)) = "KEY_SF2" :=
  ⟨(((c8_ctrl_marker_amended (-(0x40020050 : Int)) (by decide) (by decide)
        (by decide)).1 "LEFT" (by decide)).trans (by decide)),
   (((c8_ctrl_marker_amended (-(0x4001003B : Int)) (by decide) (by decide)
        (by decide)).2 (by decide) (by decide) (by decide)).trans (by decide))⟩

/-- C9: the SDL dpy_getkeyname maps the native Page Up keycode to
"KEY_PGDN" and the native Page Down keycode to "KEY_PGUP" — the two
names are transposed relative to the keys (the discrepancy the spec
flags as a likely source bug). -/
theorem c9_pgup_pgdn_transposed_code_bug :
    sdl_getkeyname (-SDLK_PAGEUP) = "KEY_PGDN"
  ∧ sdl_getkeyname (-SDLK_PAGEDOWN) = "KEY_PGUP"
  ∧ ("KEY_PGDN" : String) ≠ "KEY_PGUP" := by
  exact ⟨by decide, by decide, by decide⟩

set_option maxRecDepth 20000 in
/-- C10: the SDL event pump consumes an un-Ctrl'd printable-ASCII
key-down without returning (so the character reaches the caller only
once, as the positive codepoint of the matching SDL_TEXTINPUT event),
and every negative value the key-down case returns for a printable sym
carries the CTRL_AS_ASCII_CONTROL flag. -/
theorem c10_no_double_report :
    (∀ (sym : Int) (shift : Bool), 0x20 ≤ sym → sym < 0x80 →
      sdl_handle_keydown sym false shift = none
      ∧ sdl_handle_event (SdlEvent.textInput sym) = some sym ∧ 0 < sym)
  ∧ (∀ n : Nat, n < 0x60 → ∀ ctrl shift : Bool,
      ((sdl_handle_keydown (0x20 + (n : Int)) ctrl shift).all
        (fun v => decide (v < 0 → cAnd32 (-v) VKM_CTRLASCII ≠ 0))) = true) := by
  constructor
  · intro sym shift h1 h2
    refine ⟨?_, ?_, by omega⟩
    · simp [sdl_handle_keydown, h1, h2]
    · have : sym ≠ 0 := by omega
      simp [sdl_handle_event, this]
  · decide

/-- C10 witness: the no-double-report law at sym 'A' (0x41). -/
theorem c10_no_double_report_witness :
    (sdl_handle_keydown 0x41 false true = none
      ∧ sdl_handle_event (SdlEvent.textInput 0x41) = some 0x41 ∧ (0 : Int) < 0x41)
  ∧ ((sdl_handle_keydown 0x41 true false).all
      (fun v => decide (v < 0 → cAnd32 (-v) VKM_CTRLASCII ≠ 0))) = true :=
  ⟨c10_no_double_report.1 0x41 true (by decide) (by decide),
   c10_no_double_report.2 0x21 (by decide) true false⟩
